import Mathlib

/-!
# Verification of the agent-governance-hub audit pipeline

Shallow embedding of the Python backend (`backend/main.py`,
`backend/services/agent_service.py`, `backend/services/database_service.py`,
`backend/utils/risk_calculator.py`) and proofs of the specified properties.

External collaborators (the worker model, the evaluator model, the record
store) are modelled as explicit inputs; Python exceptions are modelled as
`Except` errors.
-/

namespace AuditHub

/-- Python exceptions raised by the embedded code: `ValueError` for invalid
input and a generic `Exception` for everything else.  `str e` is the
exception message. -/
inductive PyError
  | valueError (msg : String)
  | exception (msg : String)
  deriving DecidableEq, Repr

/-- `str(e)` of a Python exception: its message. -/
def PyError.str : PyError → String
  | .valueError m => m
  | .exception m => m

/-- Data model of `WorkerResponse` (agent_service.py): the worker agent's
generated content plus metadata. -/
structure WorkerResponse where
  content : String
  model : String
  tokens_used : Nat
  deriving DecidableEq, Repr

/-- Data model of `AuditResult` (agent_service.py): the structured risk
assessment.  `risk_score` is an integer; the rule-based evaluator clamps it
to [0,10]. -/
structure AuditResult where
  risk_score : Int
  hallucination_detected : Bool
  pii_detected : Bool
  toxic_content_detected : Bool
  details : String
  deriving DecidableEq, Repr

/-! ## String helpers

Python string operations embedded over `List Char`, so that everything
reduces in the kernel: `lowerStr` is `str.lower()`, `trimStr` is
`str.strip()`, `strContains s kw` is Python's `kw in s`. -/

/-- `str.lower()`. -/
def lowerStr (s : String) : String := ⟨s.data.map Char.toLower⟩

/-- `str.strip()`: drop leading and trailing whitespace. -/
def trimStr (s : String) : String :=
  ⟨((s.data.dropWhile Char.isWhitespace).reverse.dropWhile Char.isWhitespace).reverse⟩

/-- `kw ∈ s` on character lists: `kw` occurs as a contiguous sublist of `s`. -/
def listContains (s kw : List Char) : Bool :=
  (List.range (s.length + 1)).any (fun i => kw.isPrefixOf (s.drop i))

/-- Python's `kw in s` substring test. -/
def strContains (s kw : String) : Bool := listContains s.data kw.data

/-! ## risk_calculator.py -/

/-- Embedding of `calculate_risk_status` (risk_calculator.py, lines 11-32)
on integer inputs: scores in [0,3] are Safe, [4,6] Warning, [7,10] Flagged;
anything outside [0,10] raises `ValueError`. -/
def calculate_risk_status (risk_score : Int) : Except PyError String :=
  if risk_score < 0 ∨ risk_score > 10 then
    .error (.valueError
      ("Risk score must be an integer between 0 and 10, got: " ++ toString risk_score))
  else if risk_score ≤ 3 then .ok "Safe"
  else if risk_score ≤ 6 then .ok "Warning"
  else .ok "Flagged"

/-- A Python number as passed dynamically to `calculate_risk_status`:
either an `int` or a non-integral `float` (modelled as a rational). -/
inductive PyNum
  | int (n : Int)
  | float (x : ℚ)
  deriving DecidableEq, Repr

/-- Embedding of `calculate_risk_status` over dynamically typed input:
the `isinstance(risk_score, int)` guard rejects any non-`int` argument
with `ValueError`. -/
def calculate_risk_status_dyn : PyNum → Except PyError String
  | .int n => calculate_risk_status n
  | .float x => .error (.valueError
      ("Risk score must be an integer between 0 and 10, got: " ++ toString x))

/-! ## agent_service.py — rule-based evaluator

`AgentService.audit_response` (lines 176-319): comprehensive keyword-based
risk assessment.  Eight keyword groups are scanned in source order; within
each group the first matching keyword counts once. -/

/-- CRITICAL RISK keywords (violence, harm). -/
def critical_keywords : List String :=
  ["kill", "murder", "suicide", "bomb", "weapon", "gun", "shoot",
   "stab", "poison", "hurt", "harm", "attack", "assault", "abuse",
   "torture", "kidnap", "rape", "molest", "terrorist", "explosion"]

/-- HIGH RISK keywords (illegal activities, hacking, theft). -/
def high_risk_keywords : List String :=
  ["hack", "crack", "steal", "rob", "theft", "fraud", "scam",
   "exploit", "malware", "virus", "ransomware", "phishing",
   "illegal", "crime", "criminal", "break into", "bypass security",
   "password crack", "credit card fraud", "identity theft"]

/-- MEDIUM RISK keywords (drugs, weapons, dangerous substances). -/
def medium_risk_keywords : List String :=
  ["drug", "cocaine", "heroin", "meth", "marijuana", "weed",
   "explosive", "ammunition", "firearm", "knife", "blade",
   "chemical weapon", "poison gas", "dangerous substance"]

/-- MODERATE RISK keywords (sensitive topics). -/
def moderate_risk_keywords : List String :=
  ["medical advice", "diagnosis", "treatment", "medication",
   "legal advice", "lawsuit", "contract", "financial advice",
   "investment", "stock tip", "gambling", "bet"]

/-- PII keywords (checked against the query and the response). -/
def pii_keywords : List String :=
  ["social security", "ssn", "credit card", "bank account",
   "password", "pin code", "driver license", "passport number",
   "phone number", "email address", "home address", "date of birth"]

/-- Hate speech and discrimination keywords. -/
def hate_keywords : List String :=
  ["racist", "sexist", "homophobic", "transphobic", "xenophobic",
   "hate speech", "discrimination", "slur", "bigot", "nazi",
   "white supremacy", "ethnic cleansing"]

/-- Self-harm indicator keywords. -/
def self_harm_keywords : List String :=
  ["self harm", "cut myself", "end my life", "want to die",
   "suicide method", "overdose", "self injury"]

/-- Sexual content keywords. -/
def sexual_keywords : List String :=
  ["porn", "pornography", "explicit content", "sexual content",
   "nude", "nsfw", "adult content", "sex tape"]

/-- Fixed detail message appended when the risk score is 0. -/
def no_risk_message : String := "No risk indicators detected. Query appears safe."

/-- Embedding of `AgentService.audit_response` (agent_service.py, lines
176-319).  Each `let ...Match` is one of the source's eight
first-match-wins keyword loops (the loop `break`s at the first keyword
found, which is `List.find?`); the score, flags and detail tags then
accumulate exactly as the sequential loops do. -/
def audit_response (query response : String) : Except PyError AuditResult :=
  if trimStr query = "" then .error (.valueError "Query cannot be empty")
  else if trimStr response = "" then .error (.valueError "Response cannot be empty")
  else
    let query_lower := lowerStr query
    let response_lower := lowerStr response
    let critMatch := critical_keywords.find? (fun kw => strContains query_lower kw)
    let highMatch := high_risk_keywords.find? (fun kw => strContains query_lower kw)
    let medMatch := medium_risk_keywords.find? (fun kw => strContains query_lower kw)
    let modMatch := moderate_risk_keywords.find? (fun kw => strContains query_lower kw)
    let piiMatch := pii_keywords.find?
      (fun kw => strContains query_lower kw || strContains response_lower kw)
    let hateMatch := hate_keywords.find? (fun kw => strContains query_lower kw)
    let selfMatch := self_harm_keywords.find? (fun kw => strContains query_lower kw)
    let sexMatch := sexual_keywords.find? (fun kw => strContains query_lower kw)
    let risk_score : Nat :=
      (if critMatch.isSome then 8 else 0) + (if highMatch.isSome then 6 else 0) +
      (if medMatch.isSome then 5 else 0) + (if modMatch.isSome then 3 else 0) +
      (if piiMatch.isSome then 2 else 0) + (if hateMatch.isSome then 6 else 0) +
      (if selfMatch.isSome then 8 else 0) + (if sexMatch.isSome then 4 else 0)
    let toxic_content_detected :=
      critMatch.isSome || highMatch.isSome || medMatch.isSome ||
      hateMatch.isSome || selfMatch.isSome || sexMatch.isSome
    let pii_detected := piiMatch.isSome
    let details : List String :=
      (critMatch.map (fun kw =>
        "CRITICAL: Violence/harm keyword detected: \x27" ++ kw ++ "\x27")).toList ++
      (highMatch.map (fun kw =>
        "HIGH RISK: Illegal activity keyword: \x27" ++ kw ++ "\x27")).toList ++
      (medMatch.map (fun kw =>
        "MEDIUM RISK: Dangerous substance/weapon: \x27" ++ kw ++ "\x27")).toList ++
      (modMatch.map (fun kw =>
        "MODERATE RISK: Sensitive topic: \x27" ++ kw ++ "\x27")).toList ++
      (piiMatch.map (fun kw =>
        "PII RISK: Potential personal information: \x27" ++ kw ++ "\x27")).toList ++
      (hateMatch.map (fun kw =>
        "HATE SPEECH: Discriminatory content: \x27" ++ kw ++ "\x27")).toList ++
      (selfMatch.map (fun kw =>
        "CRITICAL: Self-harm indicator: \x27" ++ kw ++ "\x27")).toList ++
      (sexMatch.map (fun kw =>
        "SEXUAL CONTENT: Explicit material: \x27" ++ kw ++ "\x27")).toList
    let clamped := min risk_score 10
    let details2 := if clamped = 0 then details ++ [no_risk_message] else details
    let details_text :=
      if details2.isEmpty then "Standard query with no detected risks."
      else String.intercalate " | " details2
    .ok { risk_score := (clamped : Int)
          hallucination_detected := false
          pii_detected := pii_detected
          toxic_content_detected := toxic_content_detected
          details := details_text }

/-! ## Reference computation for the rule-based evaluator

The spec describes the evaluator declaratively: ordered category groups,
each with a keyword set, a point value, a toxic/PII classification and a
detail tag; first match per group wins, points sum, the total clamps to
[0,10].  `referenceAssessment` states that description; the refinement
theorem proves `audit_response` computes it. -/

/-- A category group as the spec describes it: keyword set, point value,
whether it is one of the six toxic groups, whether it is the PII group
(whose keywords are also tested against the response), and the detail tag
made from the matched keyword. -/
structure CatGroup where
  kws : List String
  pts : Nat
  isToxicCat : Bool
  isPIICat : Bool
  tagOf : String → String

/-- The eight category groups in the spec's fixed scan order:
critical-harm, illegal-activity, dangerous-substance, sensitive-topic,
PII, hate-speech, self-harm, sexual-content. -/
def refCategories : List CatGroup :=
  [⟨critical_keywords, 8, true, false,
    fun kw => "CRITICAL: Violence/harm keyword detected: \x27" ++ kw ++ "\x27"⟩,
   ⟨high_risk_keywords, 6, true, false,
    fun kw => "HIGH RISK: Illegal activity keyword: \x27" ++ kw ++ "\x27"⟩,
   ⟨medium_risk_keywords, 5, true, false,
    fun kw => "MEDIUM RISK: Dangerous substance/weapon: \x27" ++ kw ++ "\x27"⟩,
   ⟨moderate_risk_keywords, 3, false, false,
    fun kw => "MODERATE RISK: Sensitive topic: \x27" ++ kw ++ "\x27"⟩,
   ⟨pii_keywords, 2, false, true,
    fun kw => "PII RISK: Potential personal information: \x27" ++ kw ++ "\x27"⟩,
   ⟨hate_keywords, 6, true, false,
    fun kw => "HATE SPEECH: Discriminatory content: \x27" ++ kw ++ "\x27"⟩,
   ⟨self_harm_keywords, 8, true, false,
    fun kw => "CRITICAL: Self-harm indicator: \x27" ++ kw ++ "\x27"⟩,
   ⟨sexual_keywords, 4, true, false,
    fun kw => "SEXUAL CONTENT: Explicit material: \x27" ++ kw ++ "\x27"⟩]

/-- First keyword of the group matching the lower-cased query (or, for the
PII group only, the lower-cased response). -/
def matchGroup (ql rl : String) (g : CatGroup) : Option String :=
  g.kws.find? (fun kw => strContains ql kw || (g.isPIICat && strContains rl kw))

/-- The spec's reference computation of the rule-based assessment. -/
def referenceAssessment (query response : String) : AuditResult :=
  let ql := lowerStr query
  let rl := lowerStr response
  let total := (refCategories.map
    (fun g => if (matchGroup ql rl g).isSome then g.pts else 0)).sum
  let anyMatched := refCategories.any (fun g => (matchGroup ql rl g).isSome)
  let tags := (refCategories.map
    (fun g => ((matchGroup ql rl g).map g.tagOf).toList)).flatten
  { risk_score := ((min total 10 : Nat) : Int)
    hallucination_detected := false
    pii_detected := refCategories.any (fun g => g.isPIICat && (matchGroup ql rl g).isSome)
    toxic_content_detected :=
      refCategories.any (fun g => g.isToxicCat && (matchGroup ql rl g).isSome)
    details := if anyMatched then String.intercalate " | " tags else no_risk_message }

/-! ## agent_service.py — worker invocation with retry

`AgentService.process_worker_query` (lines 95-174).  The Groq API call is
an external collaborator, modelled as an oracle `call : Nat → Except
String WorkerResponse` giving the outcome of the k-th attempt (`.error e`
models a raised exception with message `e`).  The run is recorded as a
trace: attempts actually made, backoff delays slept, final outcome. -/

/-- Trace of one `process_worker_query` run. -/
structure InvokeTrace where
  attemptsMade : Nat
  delays : List Nat
  result : Except PyError WorkerResponse

/-- Retry configuration of the source: `max_attempts = 3`. -/
def max_attempts : Nat := 3

/-- Retry configuration of the source: `base_delay = 1` time unit. -/
def base_delay : Nat := 1

/-- The `for attempt in range(1, max_attempts + 1)` retry loop of
`process_worker_query`: try the call; on success return immediately; on
failure, if attempts remain, sleep `base_delay * 2 ^ (attempt - 1)` and
retry, else raise wrapping the last error. -/
def workerRetryLoop (call : Nat → Except String WorkerResponse) :
    (attempt remaining : Nat) → (delays : List Nat) → (made : Nat) → InvokeTrace
  | _, 0, delays, made =>
      ⟨made, delays.reverse, .error (.exception "Worker agent failed after 3 attempts: ")⟩
  | attempt, remaining + 1, delays, made =>
    match call attempt with
    | .ok w => ⟨made + 1, delays.reverse, .ok w⟩
    | .error e =>
      if remaining = 0 then
        ⟨made + 1, delays.reverse,
         .error (.exception ("Worker agent failed after 3 attempts: " ++ e))⟩
      else
        workerRetryLoop call (attempt + 1) remaining
          (base_delay * 2 ^ (attempt - 1) :: delays) (made + 1)

/-- Embedding of `AgentService.process_worker_query` (agent_service.py,
lines 95-174): validate the query, then run the bounded retry loop.  An
empty-after-trim query is rejected before any attempt (`attemptsMade = 0`). -/
def process_worker_query (query : String)
    (call : Nat → Except String WorkerResponse) : InvokeTrace :=
  if trimStr query = "" then ⟨0, [], .error (.valueError "Query cannot be empty")⟩
  else workerRetryLoop call 1 max_attempts [] 0

/-! ## database_service.py — persistence -/

/-- A persisted audit-log row as the record store returns it. -/
structure LogRecord where
  id : String
  query : String
  response : String
  audit : AuditResult
  status : String
  created_at : String

/-- Embedding of `DatabaseService.create_audit_log` (database_service.py,
lines 56-114).  The Supabase insert is an external collaborator, modelled
by `insertRes`: `.error e` a storage fault, `.ok none` a reply carrying no
row, `.ok (some id)` the created row's id.  The source's audit-shape
checks (`audit` non-empty, the four required fields present) always pass
here because `AuditResult` is a structure carrying exactly those fields. -/
def create_audit_log (query response : String) (_audit : AuditResult)
    (status : String) (insertRes : Except String (Option String)) :
    Except PyError String :=
  if trimStr query = "" then .error (.valueError "Query cannot be empty")
  else if trimStr response = "" then .error (.valueError "Response cannot be empty")
  else if ¬(status = "Safe" ∨ status = "Warning" ∨ status = "Flagged") then
    .error (.valueError ("Invalid status: " ++ status ++ ". Must be Safe, Warning, or Flagged"))
  else
    match insertRes with
    | .error e => .error (.exception ("Database error: Failed to create audit log - " ++ e))
    | .ok none => .error (.exception
        ("Database error: Failed to create audit log - Database insert succeeded but no ID was returned"))
    | .ok (some log_id) => .ok log_id

/-! ## main.py — the process_agent pipeline -/

/-- The HTTP error surface of the endpoint: 400 or 500 with a detail
message. -/
inductive HTTPError
  | badRequest (detail : String)
  | serverError (detail : String)
  deriving DecidableEq

/-- The endpoint's response model. -/
structure ProcessAgentResponse where
  id : String
  query : String
  response : String
  audit : AuditResult
  status : String
  created_at : String
  deriving DecidableEq

/-- Trace of one `process_agent` run: whether the persistence and
read-back collaborators were called, and the final outcome. -/
structure PipelineTrace where
  persistCalled : Bool
  readbackCalled : Bool
  result : Except HTTPError ProcessAgentResponse

/-- The pipeline's evaluation step with its fallback (main.py, lines
146-173): the rule-based `audit_response`, and on any evaluator failure
the fixed `FallbackAuditResult` with `risk_score = 5`, all flags false and
details describing the failure. -/
def pipelineAudit (query content : String) : AuditResult :=
  match audit_response query content with
  | .ok a => a
  | .error e => ⟨5, false, false, false, "Audit failed: " ++ e.str⟩

/-- Embedding of `process_agent` (main.py, lines 105-230).  The worker
invocation outcome, the insert outcome and the read-back outcome are the
run's collaborator inputs; `now` is `datetime.utcnow().isoformat()` at
fallback time. -/
def process_agent (user_query : String)
    (workerRes : Except PyError WorkerResponse)
    (insertRes : Except String (Option String))
    (readbackRes : Except String (List LogRecord))
    (now : String) : PipelineTrace :=
  if trimStr user_query = "" then
    ⟨false, false, .error (.badRequest "Query cannot be empty")⟩
  else
    match workerRes with
    | .error e =>
      ⟨false, false, .error (.serverError
        ("Worker agent failed to process query: " ++ e.str))⟩
    | .ok w =>
      let audit_result := pipelineAudit user_query w.content
      match calculate_risk_status audit_result.risk_score with
      | .error e =>
        ⟨false, false, .error (.serverError ("Internal server error: " ++ e.str))⟩
      | .ok risk_status =>
        match create_audit_log user_query w.content audit_result risk_status insertRes with
        | .error e =>
          ⟨true, false, .error (.serverError ("Failed to store audit log: " ++ e.str))⟩
        | .ok log_id =>
          match readbackRes with
          | .ok (created_log :: _) =>
            ⟨true, true, .ok ⟨created_log.id, created_log.query, created_log.response,
              created_log.audit, created_log.status, created_log.created_at⟩⟩
          | _ =>
            ⟨true, true, .ok ⟨log_id, user_query, w.content, audit_result, risk_status, now⟩⟩

/-! ## Model-based evaluator (modelled from the spec)

The repository's `src/` tree only ships the rule-based evaluator; the
model-based strategy the spec describes (its Gemini client is initialized
in `AgentService.__init__` but no model-based variant is present under
`src/`) is modelled here from the spec's words in §4.2. -/

/-- Minimal JSON value for the evaluator model's output once parsed. -/
inductive Json
  | null
  | bool (b : Bool)
  | num (n : Int)
  | str (s : String)
  | arr (elems : List Json)
  | obj (fields : List (String × Json))

/-- Key lookup in a JSON object's field list. -/
def getField (fields : List (String × Json)) (k : String) : Option Json :=
  (fields.find? (fun p => p.1 == k)).map (fun p => p.2)

/-- Modelled from the spec: validation of one model-based evaluator
attempt (spec §4.2, strategy 1, absent from src/).  The output must be a
JSON object with exactly the required keys `risk_score`,
`toxic_content_detected`, `pii_detected`, `hallucination_detected`,
`details` of the right types and a score inside [0,10]; anything else is
a failed attempt (`none`), never clamped or accepted. -/
def validateAssessment : Json → Option AuditResult
  | .obj fs =>
    (match getField fs "risk_score", getField fs "toxic_content_detected",
        getField fs "pii_detected", getField fs "hallucination_detected",
        getField fs "details" with
    | some (.num n), some (.bool t), some (.bool p), some (.bool h), some (.str d) =>
      if 0 ≤ n ∧ n ≤ 10 then some ⟨n, h, p, t, d⟩ else none
    | _, _, _, _, _ => none)
  | _ => none

/-- Error surface of the model-based evaluator as the spec names it. -/
inductive EvalError
  | invalidInput (msg : String)
  | evaluationFailed (msg : String)
  deriving DecidableEq

/-- Trace of one model-based evaluation run. -/
structure EvalTrace where
  attemptsMade : Nat
  delays : List Nat
  result : Except EvalError AuditResult

/-- Modelled from the spec: the model-based evaluator's bounded retry loop
(spec §4.2, absent from src/) — the same policy as WorkerInvoker: up to 3
attempts with backoff `base_delay * 2 ^ (attempt - 1)`.  `call k` is the
parsed JSON of the k-th evaluator-model response, `none` meaning the text
could not be parsed as JSON. -/
def modelEvalLoop (call : Nat → Option Json) :
    (attempt remaining : Nat) → (delays : List Nat) → (made : Nat) → EvalTrace
  | _, 0, delays, made =>
    ⟨made, delays.reverse, .error (.evaluationFailed "Evaluation failed after 3 attempts")⟩
  | attempt, remaining + 1, delays, made =>
    match (call attempt).bind validateAssessment with
    | some a => ⟨made + 1, delays.reverse, .ok a⟩
    | none =>
      if remaining = 0 then
        ⟨made + 1, delays.reverse,
         .error (.evaluationFailed "Evaluation failed after 3 attempts")⟩
      else
        modelEvalLoop call (attempt + 1) remaining
          (base_delay * 2 ^ (attempt - 1) :: delays) (made + 1)

/-- Modelled from the spec: `evaluate` of the model-based strategy (spec
§4.2, absent from src/): validate both inputs, then retry the evaluator
model under the bounded policy, failing with `EvaluationFailed` when all
attempts produce unusable output. -/
def model_evaluate (query response : String) (call : Nat → Option Json) : EvalTrace :=
  if trimStr query = "" then ⟨0, [], .error (.invalidInput "Query cannot be empty")⟩
  else if trimStr response = "" then ⟨0, [], .error (.invalidInput "Response cannot be empty")⟩
  else modelEvalLoop call 1 max_attempts [] 0

/-! ## risk_calculator.py — calculate_average_risk

The logs arrive as parsed JSON dictionaries; for `calculate_average_risk`
only the shape along the `log["audit"]["risk_score"]` path matters, so a
log is modelled by what that path yields. -/

/-- The `risk_score` entry of a log's audit dictionary: absent, present
but not a number, or a numeric value. -/
inductive RiskField
  | absent
  | notNumber
  | value (x : ℚ)
  deriving DecidableEq

/-- A log dictionary as `calculate_average_risk` sees it: missing the
`audit` key, or carrying an audit dictionary. -/
inductive LogAudit
  | noAudit
  | withAudit (f : RiskField)
  deriving DecidableEq

/-- The exceptions `calculate_average_risk` raises. -/
inductive AvgError
  | keyError
  | typeError
  deriving DecidableEq

/-- One iteration of the source's accumulation loop: missing `audit` or
missing `risk_score` raises `KeyError`, a non-numeric score raises
`TypeError`, otherwise the score is returned. -/
def scoreOf : LogAudit → Except AvgError ℚ
  | .noAudit => .error .keyError
  | .withAudit .absent => .error .keyError
  | .withAudit .notNumber => .error .typeError
  | .withAudit (.value x) => .ok x

/-- The source's `total_score` accumulation over the logs, stopping at the
first offending log. -/
def sumScores : List LogAudit → Except AvgError ℚ
  | [] => .ok 0
  | l :: ls =>
    match scoreOf l with
    | .error e => .error e
    | .ok x =>
      match sumScores ls with
      | .error e => .error e
      | .ok s => .ok (x + s)

/-- Embedding of `calculate_average_risk` (risk_calculator.py, lines
35-68): 0.0 on the empty list, else the accumulated total divided by the
number of logs. -/
def calculate_average_risk (logs : List LogAudit) : Except AvgError ℚ :=
  if logs.isEmpty then .ok 0
  else
    match sumScores logs with
    | .error e => .error e
    | .ok s => .ok (s / logs.length)

/-- The numeric score of a well-formed log (0 for ill-formed ones; only
applied to well-formed logs in the theorems). -/
def scoreVal : LogAudit → ℚ
  | .withAudit (.value x) => x
  | _ => 0

/-! ## Theorems -/

/-- Intercalating a one-element list is the element itself. -/
theorem intercalate_singleton (sep s : String) : String.intercalate sep [s] = s := rfl

set_option maxHeartbeats 4000000 in
/-- C1: for every call of the rule-based `evaluate(query, response)` with
both arguments non-empty after trimming, the returned assessment equals
the reference computation: scan the eight category groups in the fixed
order, count at most the first matching keyword per group (PII keywords
also against the response), sum the matched groups' points clamped to
[0,10]; `toxic_content_detected` iff a toxic group matched,
`pii_detected` iff the PII group matched, `hallucination_detected` always
false, and `details` is the tag concatenation or the fixed no-risk
message. -/
theorem audit_response_matches_reference (query response : String)
    (hq : trimStr query ≠ "") (hr : trimStr response ≠ "") :
    audit_response query response = .ok (referenceAssessment query response) := by
  simp only [audit_response, referenceAssessment, refCategories, matchGroup,
    if_neg hq, if_neg hr, List.map_cons, List.map_nil, List.any_cons, List.any_nil,
    List.sum_cons, List.sum_nil, List.flatten_cons, List.flatten_nil,
    Bool.false_and, Bool.true_and, Bool.or_false]
  rcases h1 : List.find? (fun kw => strContains (lowerStr query) kw)
      critical_keywords with _ | kw1 <;>
  rcases h2 : List.find? (fun kw => strContains (lowerStr query) kw)
      high_risk_keywords with _ | kw2 <;>
  rcases h3 : List.find? (fun kw => strContains (lowerStr query) kw)
      medium_risk_keywords with _ | kw3 <;>
  rcases h4 : List.find? (fun kw => strContains (lowerStr query) kw)
      moderate_risk_keywords with _ | kw4 <;>
  rcases h5 : List.find? (fun kw => strContains (lowerStr query) kw
      || strContains (lowerStr response) kw) pii_keywords with _ | kw5 <;>
  rcases h6 : List.find? (fun kw => strContains (lowerStr query) kw)
      hate_keywords with _ | kw6 <;>
  rcases h7 : List.find? (fun kw => strContains (lowerStr query) kw)
      self_harm_keywords with _ | kw7 <;>
  rcases h8 : List.find? (fun kw => strContains (lowerStr query) kw)
      sexual_keywords with _ | kw8 <;>
  simp_all [Nat.min_def, no_risk_message, intercalate_singleton]

/-- C1 witness: the refinement theorem applied at a concrete query and
response with non-empty trims. -/
theorem audit_response_matches_reference_witness :
    audit_response "How can I kill someone?" "I cannot help with that." =
      .ok (referenceAssessment "How can I kill someone?" "I cannot help with that.") :=
  audit_response_matches_reference _ _ (by decide) (by decide)

/-- C2: for every integer `s` in [0,10], `calculate_risk_status` returns
Safe iff `s ∈ [0,3]`, Warning iff `s ∈ [4,6]`, Flagged iff `s ∈ [7,10]`;
every input outside [0,10] or non-integral fails with `ValueError`; the
function is a pure function of the score alone. -/
theorem calculate_risk_status_correct :
    (∀ s : Int, 0 ≤ s → s ≤ 10 →
      (calculate_risk_status_dyn (.int s) = .ok "Safe" ↔ 0 ≤ s ∧ s ≤ 3) ∧
      (calculate_risk_status_dyn (.int s) = .ok "Warning" ↔ 4 ≤ s ∧ s ≤ 6) ∧
      (calculate_risk_status_dyn (.int s) = .ok "Flagged" ↔ 7 ≤ s ∧ s ≤ 10)) ∧
    (∀ s : Int, s < 0 ∨ 10 < s →
      ∃ m, calculate_risk_status_dyn (.int s) = .error (.valueError m)) ∧
    (∀ x : ℚ, ∃ m, calculate_risk_status_dyn (.float x) = .error (.valueError m)) := by
  refine ⟨?_, ?_, ?_⟩
  · intro s h0 h10
    simp only [calculate_risk_status_dyn, calculate_risk_status]
    split_ifs with hA hB hC <;> simp_all <;> omega
  · intro s hs
    have h : calculate_risk_status_dyn (.int s) = .error (.valueError
        ("Risk score must be an integer between 0 and 10, got: " ++ toString s)) := by
      simp only [calculate_risk_status_dyn, calculate_risk_status]
      rw [if_pos (by omega)]
    exact ⟨_, h⟩
  · intro x
    exact ⟨_, rfl⟩

/-- C2 witness: the classifier theorem applied at the concrete scores 5,
11 and the non-integral input 1/2. -/
theorem calculate_risk_status_correct_witness :
    calculate_risk_status_dyn (.int 5) = .ok "Warning" ∧
    (∃ m, calculate_risk_status_dyn (.int 11) = .error (.valueError m)) ∧
    (∃ m, calculate_risk_status_dyn (.float (1 / 2)) = .error (.valueError m)) :=
  ⟨((calculate_risk_status_correct.1 5 (by decide) (by decide)).2.1).mpr (by decide),
   calculate_risk_status_correct.2.1 11 (Or.inr (by decide)),
   calculate_risk_status_correct.2.2 (1 / 2)⟩

/-- C4: for every query non-empty after trimming, `process_worker_query`
makes at most 3 attempts; the delays slept between consecutive failed
attempts are `base_delay * 2 ^ (attempt - 1)` (so 1 then 2); success at
any attempt returns that result with no further attempts; if all three
attempts fail the run fails wrapping the last underlying error, with
exactly the delays 1 and 2 used, and no partial result is returned. -/
theorem process_worker_query_retry_policy (q : String)
    (call : Nat → Except String WorkerResponse) (hq : trimStr q ≠ "") :
    (process_worker_query q call).attemptsMade ≤ 3 ∧
    (process_worker_query q call).delays =
      (List.range ((process_worker_query q call).attemptsMade - 1)).map
        (fun i => base_delay * 2 ^ i) ∧
    (∀ k w, 1 ≤ k → k ≤ 3 → call k = .ok w →
      (∀ j, 1 ≤ j → j < k → ∃ e, call j = .error e) →
      (process_worker_query q call).result = .ok w ∧
      (process_worker_query q call).attemptsMade = k) ∧
    ((∀ j, 1 ≤ j → j ≤ 3 → ∃ e, call j = .error e) →
      ∃ e3, call 3 = .error e3 ∧
        (process_worker_query q call).result =
          .error (.exception ("Worker agent failed after 3 attempts: " ++ e3)) ∧
        (process_worker_query q call).delays = [1, 2]) := by
  rcases hc1 : call 1 with e1 | w1
  · rcases hc2 : call 2 with e2 | w2
    · rcases hc3 : call 3 with e3 | w3
      · -- all three attempts fail
        have ht : process_worker_query q call = ⟨3, [1, 2],
            .error (.exception ("Worker agent failed after 3 attempts: " ++ e3))⟩ := by
          simp [process_worker_query, if_neg hq, max_attempts, workerRetryLoop,
            hc1, hc2, hc3, base_delay]
        rw [ht]
        refine ⟨by simp, by simp [base_delay, List.range_succ], ?_, ?_⟩
        · intro k w h1k hk3 hk hprev
          interval_cases k <;> simp_all
        · intro _
          exact ⟨e3, rfl, rfl, rfl⟩
      · -- success at the third attempt
        have ht : process_worker_query q call = ⟨3, [1, 2], .ok w3⟩ := by
          simp [process_worker_query, if_neg hq, max_attempts, workerRetryLoop,
            hc1, hc2, hc3, base_delay]
        rw [ht]
        refine ⟨by simp, by simp [base_delay, List.range_succ], ?_, ?_⟩
        · intro k w h1k hk3 hk hprev
          interval_cases k <;> simp_all
        · intro hall
          obtain ⟨e, he⟩ := hall 3 (by omega) (by omega)
          rw [hc3] at he
          simp at he
    · -- success at the second attempt
      have ht : process_worker_query q call = ⟨2, [1], .ok w2⟩ := by
        simp [process_worker_query, if_neg hq, max_attempts, workerRetryLoop,
          hc1, hc2, base_delay]
      rw [ht]
      refine ⟨by simp, by simp [base_delay, List.range_succ], ?_, ?_⟩
      · intro k w h1k hk3 hk hprev
        interval_cases k
        · simp_all
        · simp_all
        · obtain ⟨e, he⟩ := hprev 2 (by omega) (by omega)
          rw [hc2] at he
          simp at he
      · intro hall
        obtain ⟨e, he⟩ := hall 2 (by omega) (by omega)
        rw [hc2] at he
        simp at he
  · -- success at the first attempt
    have ht : process_worker_query q call = ⟨1, [], .ok w1⟩ := by
      simp [process_worker_query, if_neg hq, max_attempts, workerRetryLoop, hc1]
    rw [ht]
    refine ⟨by simp, by simp, ?_, ?_⟩
    · intro k w h1k hk3 hk hprev
      interval_cases k
      · simp_all
      · obtain ⟨e, he⟩ := hprev 1 (by omega) (by omega)
        rw [hc1] at he
        simp at he
      · obtain ⟨e, he⟩ := hprev 1 (by omega) (by omega)
        rw [hc1] at he
        simp at he
    · intro hall
      obtain ⟨e, he⟩ := hall 1 (by omega) (by omega)
      rw [hc1] at he
      simp at he

/-- C4 witness: the retry-policy theorem applied to a concrete query and
a call oracle failing on every attempt. -/
theorem process_worker_query_retry_policy_witness :
    (process_worker_query "hello"
      (fun _ => .error "boom")).result =
      .error (.exception ("Worker agent failed after 3 attempts: " ++ "boom")) := by
  obtain ⟨e3, he3, hres, -⟩ :=
    (process_worker_query_retry_policy "hello" (fun _ => .error "boom")
      (by decide)).2.2.2 (fun j _ _ => ⟨"boom", rfl⟩)
  simp at he3
  subst he3
  exact hres

/-- On success the rule-based evaluator's risk score lies in [0,10]: it is
a natural number clamped by `min _ 10`. -/
theorem audit_response_score_range (q r : String) (a : AuditResult)
    (h : audit_response q r = .ok a) : 0 ≤ a.risk_score ∧ a.risk_score ≤ 10 := by
  by_cases hq : trimStr q = ""
  · rw [audit_response, if_pos hq] at h
    simp at h
  · by_cases hr : trimStr r = ""
    · rw [audit_response, if_neg hq, if_pos hr] at h
      simp at h
    · rw [audit_response, if_neg hq, if_neg hr] at h
      simp only [Except.ok.injEq] at h
      subst h
      dsimp only
      refine ⟨?_, ?_⟩
      · exact_mod_cast Nat.zero_le _
      · exact_mod_cast Nat.min_le_right _ 10

/-- C7: every assessment that reaches the pipeline's Classify step has an
integer risk score in [0,10] — the rule-based evaluator guarantees it on
success, the model-based strategy only validates scores inside [0,10],
and the fallback default is 5 — so the classify call inside the pipeline
can never fail. -/
theorem pipeline_classify_total :
    (∀ q c : String, 0 ≤ (pipelineAudit q c).risk_score ∧
      (pipelineAudit q c).risk_score ≤ 10 ∧
      ∃ st, calculate_risk_status (pipelineAudit q c).risk_score = .ok st) ∧
    (∀ j a, validateAssessment j = some a →
      0 ≤ a.risk_score ∧ a.risk_score ≤ 10) := by
  have hval : ∀ j a, validateAssessment j = some a →
      0 ≤ a.risk_score ∧ a.risk_score ≤ 10 := by
    intro j a h
    cases j with
    | obj fs =>
      simp only [validateAssessment] at h
      split at h
      · split_ifs at h with hcond
        simp only [Option.some.injEq] at h
        subst h
        simpa using hcond
      · simp at h
    | null => simp [validateAssessment] at h
    | bool b => simp [validateAssessment] at h
    | num n => simp [validateAssessment] at h
    | str s => simp [validateAssessment] at h
    | arr xs => simp [validateAssessment] at h
  refine ⟨?_, hval⟩
  intro q c
  have hrange : 0 ≤ (pipelineAudit q c).risk_score ∧
      (pipelineAudit q c).risk_score ≤ 10 := by
    unfold pipelineAudit
    rcases h : audit_response q c with e | a
    · exact ⟨by norm_num, by norm_num⟩
    · exact audit_response_score_range q c a h
  refine ⟨hrange.1, hrange.2, ?_⟩
  unfold calculate_risk_status
  rw [if_neg (by omega)]
  split_ifs <;> exact ⟨_, rfl⟩

/-- C7 witness: the classify-totality theorem applied at a concrete
query/content pair and at a concrete validated JSON object. -/
theorem pipeline_classify_total_witness :
    (∃ st, calculate_risk_status
      (pipelineAudit "hello" "hi there").risk_score = .ok st) ∧
    0 ≤ (AuditResult.mk 4 false false false "ok").risk_score := by
  refine ⟨(pipeline_classify_total.1 "hello" "hi there").2.2, ?_⟩
  exact (pipeline_classify_total.2
    (.obj [("risk_score", .num 4), ("toxic_content_detected", .bool false),
           ("pii_detected", .bool false), ("hallucination_detected", .bool false),
           ("details", .str "ok")])
    ⟨4, false, false, false, "ok"⟩ (by decide)).1

/-- C3: when the worker succeeded but the evaluation step fails, the
pipeline substitutes the fixed default assessment (score 5, all flags
false, details describing the failure), classifies it as Warning, still
calls persistence, and the only error such a run can surface is a
persistence error — evaluator failure itself is never surfaced. -/
theorem pipeline_eval_failure_fallback (q now : String) (w : WorkerResponse)
    (ins : Except String (Option String)) (rb : Except String (List LogRecord))
    (e : PyError) (hq : trimStr q ≠ "")
    (he : audit_response q w.content = .error e) :
    pipelineAudit q w.content = ⟨5, false, false, false, "Audit failed: " ++ e.str⟩ ∧
    calculate_risk_status (pipelineAudit q w.content).risk_score = .ok "Warning" ∧
    (process_agent q (.ok w) ins rb now).persistCalled = true ∧
    (∀ pe, create_audit_log q w.content (pipelineAudit q w.content) "Warning" ins =
        .error pe →
      (process_agent q (.ok w) ins rb now).result =
        .error (.serverError ("Failed to store audit log: " ++ pe.str))) ∧
    (∀ log_id, create_audit_log q w.content (pipelineAudit q w.content) "Warning" ins =
        .ok log_id →
      ∃ resp, (process_agent q (.ok w) ins rb now).result = .ok resp) := by
  have hpa : pipelineAudit q w.content =
      ⟨5, false, false, false, "Audit failed: " ++ e.str⟩ := by
    unfold pipelineAudit
    rw [he]
  have hcls : calculate_risk_status
      (pipelineAudit q w.content).risk_score = .ok "Warning" := by
    rw [hpa]
    rfl
  refine ⟨hpa, hcls, ?_, ?_, ?_⟩
  · simp only [process_agent, if_neg hq]
    rw [hcls]
    dsimp only
    rcases hc : create_audit_log q w.content (pipelineAudit q w.content) "Warning" ins
        with pe | log_id
    · rfl
    · rcases rb with err | logs
      · rfl
      · rcases logs with _ | ⟨l, ls⟩ <;> rfl
  · intro pe hpe
    simp only [process_agent, if_neg hq]
    rw [hcls]
    dsimp only
    rw [hpe]
  · intro log_id hid
    simp only [process_agent, if_neg hq]
    rw [hcls]
    dsimp only
    rw [hid]
    rcases rb with err | logs
    · exact ⟨_, rfl⟩
    · rcases logs with _ | ⟨l, ls⟩ <;> exact ⟨_, rfl⟩

/-- C3 witness: the fallback theorem at a concrete run whose worker
response is whitespace-only, so the evaluation step fails. -/
theorem pipeline_eval_failure_fallback_witness :
    pipelineAudit "hello" (WorkerResponse.mk "  " "m" 1).content =
      ⟨5, false, false, false,
       "Audit failed: " ++ PyError.str (.valueError "Response cannot be empty")⟩ :=
  (pipeline_eval_failure_fallback "hello" "t0" (WorkerResponse.mk "  " "m" 1)
    (.ok (some "id-1")) (.ok []) (.valueError "Response cannot be empty")
    (by decide) rfl).1

/-- C5: a worker failure is fatal — the pipeline surfaces a server error
and never calls persistence; a persistence failure is likewise fatal and
surfaced, so no successful response with an unstored record is returned. -/
theorem pipeline_fatal_failures (q now : String)
    (ins : Except String (Option String)) (rb : Except String (List LogRecord))
    (hq : trimStr q ≠ "") :
    (∀ e, (process_agent q (.error e) ins rb now).persistCalled = false ∧
      (process_agent q (.error e) ins rb now).result =
        .error (.serverError ("Worker agent failed to process query: " ++ e.str))) ∧
    (∀ w st pe, calculate_risk_status (pipelineAudit q w.content).risk_score = .ok st →
      create_audit_log q w.content (pipelineAudit q w.content) st ins = .error pe →
      (process_agent q (.ok w) ins rb now).result =
        .error (.serverError ("Failed to store audit log: " ++ pe.str))) := by
  constructor
  · intro e
    constructor <;> simp [process_agent, if_neg hq]
  · intro w st pe hst hpe
    simp only [process_agent, if_neg hq]
    rw [hst]
    dsimp only
    rw [hpe]

/-- C5 witness: the fatal-failure theorem at a concrete worker failure
and a concrete persistence failure. -/
theorem pipeline_fatal_failures_witness :
    (process_agent "hello" (.error (.exception "down")) (.ok (some "id-1"))
      (.ok []) "t0").persistCalled = false ∧
    (process_agent "hello" (.ok (WorkerResponse.mk "hi there" "m" 1))
      (.error "disk full") (.ok []) "t0").result =
      .error (.serverError ("Failed to store audit log: " ++
        PyError.str (.exception ("Database error: Failed to create audit log - disk full")))) :=
  ⟨((pipeline_fatal_failures "hello" "t0" (.ok (some "id-1")) (.ok [])
      (by decide)).1 (.exception "down")).1,
   (pipeline_fatal_failures "hello" "t0" (.error "disk full") (.ok [])
      (by decide)).2 (WorkerResponse.mk "hi there" "m" 1) "Safe"
      (.exception ("Database error: Failed to create audit log - disk full"))
      rfl rfl⟩

/-- C6: an empty-after-trim query is rejected with the invalid-input
error by the worker invoker, by both evaluators and by the pipeline's
Validate step, with no outbound call made: the worker trace shows zero
attempts and the pipeline trace shows neither persistence nor read-back
called, for every possible collaborator behaviour. -/
theorem empty_query_rejected (q : String) (hq : trimStr q = "") :
    (∀ call, process_worker_query q call =
      ⟨0, [], .error (.valueError "Query cannot be empty")⟩) ∧
    (∀ r, audit_response q r = .error (.valueError "Query cannot be empty")) ∧
    (∀ r call, model_evaluate q r call =
      ⟨0, [], .error (.invalidInput "Query cannot be empty")⟩) ∧
    (∀ workerRes ins rb now, process_agent q workerRes ins rb now =
      ⟨false, false, .error (.badRequest "Query cannot be empty")⟩) := by
  refine ⟨?_, ?_, ?_, ?_⟩
  · intro call
    rw [process_worker_query, if_pos hq]
  · intro r
    rw [audit_response, if_pos hq]
  · intro r call
    rw [model_evaluate, if_pos hq]
  · intro workerRes ins rb now
    simp only [process_agent, hq]
    rfl

/-- C6 witness: the rejection theorem at a concrete whitespace-only
query and concrete collaborators. -/
theorem empty_query_rejected_witness :
    audit_response "   " "some response" =
      .error (.valueError "Query cannot be empty") :=
  (empty_query_rejected "   " (by decide)).2.1 "some response"

/-- C9: when persistence succeeded but the read-back fails or returns no
rows, the request still succeeds, with the response synthesized from the
id the persist step returned, the locally known query, response and
assessment, and the current time as `created_at`. -/
theorem pipeline_readback_fallback (q now : String) (w : WorkerResponse)
    (ins : Except String (Option String)) (rb : Except String (List LogRecord))
    (st log_id : String) (hq : trimStr q ≠ "")
    (hst : calculate_risk_status (pipelineAudit q w.content).risk_score = .ok st)
    (hid : create_audit_log q w.content (pipelineAudit q w.content) st ins = .ok log_id)
    (hrb : (∃ err, rb = .error err) ∨ rb = .ok []) :
    (process_agent q (.ok w) ins rb now).result =
      .ok ⟨log_id, q, w.content, pipelineAudit q w.content, st, now⟩ ∧
    (process_agent q (.ok w) ins rb now).readbackCalled = true := by
  have hgo : process_agent q (.ok w) ins rb now =
      ⟨true, true, .ok ⟨log_id, q, w.content, pipelineAudit q w.content, st, now⟩⟩ := by
    simp only [process_agent, if_neg hq]
    rw [hst]
    dsimp only
    rw [hid]
    rcases hrb with ⟨err, rfl⟩ | rfl
    · rfl
    · rfl
  rw [hgo]
  exact ⟨rfl, rfl⟩

/-- C9 witness: the read-back fallback theorem at a concrete successful
run whose read-back returns no rows. -/
theorem pipeline_readback_fallback_witness :
    (process_agent "hello" (.ok (WorkerResponse.mk "hi there" "m" 1))
      (.ok (some "id-1")) (.ok []) "t0").result =
      .ok ⟨"id-1", "hello", "hi there",
        pipelineAudit "hello" "hi there", "Safe", "t0"⟩ :=
  (pipeline_readback_fallback "hello" "t0" (WorkerResponse.mk "hi there" "m" 1)
    (.ok (some "id-1")) (.ok []) "Safe" "id-1"
    (by decide) rfl rfl (Or.inr rfl)).1

/-- C8: for the model-based strategy, every attempt whose output fails
validation — unparsable JSON, a missing required key, or a score outside
[0,10] — is a failed attempt retried under the same bounded policy as the
worker invoker; when all three attempts fail, evaluation fails with
`EvaluationFailed` with backoff delays 1 and 2 used, never returning a
malformed or clamped assessment; success requires a numeric in-range
score taken verbatim. -/
theorem model_evaluate_bounded_retry (q r : String) (call : Nat → Option Json)
    (hq : trimStr q ≠ "") (hr : trimStr r ≠ "") :
    ((∀ k, 1 ≤ k → k ≤ 3 → (call k).bind validateAssessment = none) →
      model_evaluate q r call =
        ⟨3, [1, 2], .error (.evaluationFailed "Evaluation failed after 3 attempts")⟩) ∧
    (∀ fs a, validateAssessment (.obj fs) = some a →
      ∃ n, getField fs "risk_score" = some (.num n) ∧ 0 ≤ n ∧ n ≤ 10 ∧
        a.risk_score = n) ∧
    (∀ k a, 1 ≤ k → k ≤ 3 → (call k).bind validateAssessment = some a →
      (∀ j, 1 ≤ j → j < k → (call j).bind validateAssessment = none) →
      (model_evaluate q r call).result = .ok a ∧
      (model_evaluate q r call).attemptsMade = k) := by
  refine ⟨?_, ?_, ?_⟩
  · intro hall
    have h1 := hall 1 (by omega) (by omega)
    have h2 := hall 2 (by omega) (by omega)
    have h3 := hall 3 (by omega) (by omega)
    simp [model_evaluate, if_neg hq, if_neg hr, max_attempts, modelEvalLoop,
      h1, h2, h3, base_delay]
  · intro fs a h
    simp only [validateAssessment] at h
    split at h
    · split_ifs at h with hcond
      simp only [Option.some.injEq] at h
      subst h
      rename_i heq1 heq2 heq3 heq4 heq5
      exact ⟨_, heq1, hcond.1, hcond.2, rfl⟩
    · simp at h
  · intro k a h1k hk3 hk hprev
    interval_cases k
    · constructor <;>
        simp [model_evaluate, if_neg hq, if_neg hr, max_attempts, modelEvalLoop, hk]
    · have h1 := hprev 1 (by omega) (by omega)
      constructor <;>
        simp [model_evaluate, if_neg hq, if_neg hr, max_attempts, modelEvalLoop,
          h1, hk, base_delay]
    · have h1 := hprev 1 (by omega) (by omega)
      have h2 := hprev 2 (by omega) (by omega)
      constructor <;>
        simp [model_evaluate, if_neg hq, if_neg hr, max_attempts, modelEvalLoop,
          h1, h2, hk, base_delay]

/-- C8 witness: the bounded-retry theorem at concrete inputs with an
evaluator model whose output never parses. -/
theorem model_evaluate_bounded_retry_witness :
    model_evaluate "what is 2+2" "4" (fun _ => none) =
      ⟨3, [1, 2], .error (.evaluationFailed "Evaluation failed after 3 attempts")⟩ :=
  (model_evaluate_bounded_retry "what is 2+2" "4" (fun _ => none)
    (by decide) (by decide)).1 (fun _ _ _ => rfl)

/-- Accumulating well-formed logs yields the sum of their scores. -/
theorem sumScores_ok (logs : List LogAudit)
    (h : ∀ l ∈ logs, ∃ x, l = LogAudit.withAudit (.value x)) :
    sumScores logs = .ok ((logs.map scoreVal).sum) := by
  induction logs with
  | nil => rfl
  | cons l ls ih =>
    obtain ⟨x, rfl⟩ := h l (by simp)
    rw [sumScores, ih (fun l' hl' => h l' (by simp [hl']))]
    simp only [List.map_cons, List.sum_cons]
    rfl

/-- Accumulation stops with the error of the first offending log. -/
theorem sumScores_error (pre rest : List LogAudit) (bad : LogAudit) (e : AvgError)
    (h : ∀ l ∈ pre, ∃ x, l = LogAudit.withAudit (.value x))
    (hbad : scoreOf bad = .error e) :
    sumScores (pre ++ bad :: rest) = .error e := by
  induction pre with
  | nil =>
    simp only [List.nil_append, sumScores]
    rw [hbad]
  | cons l ls ih =>
    obtain ⟨x, rfl⟩ := h l (by simp)
    simp only [List.cons_append, sumScores, List.append_eq]
    rw [ih (fun l' hl' => h l' (by simp [hl']))]
    rfl

/-- C10: `calculate_average_risk` returns 0 on the empty list; on a
non-empty list of logs each carrying a numeric `risk_score` it returns
the arithmetic mean; it raises `KeyError` at the first log lacking the
`audit` key or whose audit lacks `risk_score`, and `TypeError` at the
first non-numeric `risk_score`. -/
theorem calculate_average_risk_correct :
    calculate_average_risk [] = .ok 0 ∧
    (∀ logs, logs ≠ [] → (∀ l ∈ logs, ∃ x, l = LogAudit.withAudit (.value x)) →
      calculate_average_risk logs = .ok ((logs.map scoreVal).sum / logs.length)) ∧
    (∀ pre rest, (∀ l ∈ pre, ∃ x, l = LogAudit.withAudit (.value x)) →
      calculate_average_risk (pre ++ .noAudit :: rest) = .error .keyError ∧
      calculate_average_risk (pre ++ .withAudit .absent :: rest) = .error .keyError ∧
      calculate_average_risk (pre ++ .withAudit .notNumber :: rest) = .error .typeError) := by
  refine ⟨rfl, ?_, ?_⟩
  · intro logs hne hall
    have hε : logs.isEmpty = false := by
      cases logs with
      | nil => exact absurd rfl hne
      | cons a as => rfl
    simp only [calculate_average_risk, hε, Bool.false_eq_true, if_false]
    rw [sumScores_ok logs hall]
  · intro pre rest hall
    have key : ∀ (bad : LogAudit) (e : AvgError), scoreOf bad = .error e →
        calculate_average_risk (pre ++ bad :: rest) = .error e := by
      intro bad e hbad
      have hε : (pre ++ bad :: rest).isEmpty = false := by
        cases pre <;> rfl
      simp only [calculate_average_risk, hε, Bool.false_eq_true, if_false]
      rw [sumScores_error pre rest bad e hall hbad]
    exact ⟨key _ _ rfl, key _ _ rfl, key _ _ rfl⟩

/-- C10 witness: the average of the two concrete scores 2 and 3. -/
theorem calculate_average_risk_correct_witness :
    calculate_average_risk
        [LogAudit.withAudit (.value 2), LogAudit.withAudit (.value 3)] =
      .ok (([LogAudit.withAudit (.value 2), LogAudit.withAudit (.value 3)].map
        scoreVal).sum /
        ([LogAudit.withAudit (.value 2), LogAudit.withAudit (.value 3)] :
          List LogAudit).length) :=
  calculate_average_risk_correct.2.1 _ (by simp)
    (by
      intro l hl
      simp only [List.mem_cons, List.not_mem_nil, or_false] at hl
      rcases hl with rfl | rfl
      · exact ⟨2, rfl⟩
      · exact ⟨3, rfl⟩)

end AuditHub
